import Mathlib

/-!
Verification development for the black-mirror social/on-chain metrics
aggregation service.  The definitions below are a shallow embedding of the
per-platform data-normalization and time-windowed caching engine
(`src/server/src/api/direct.ts`, the LinkedIn service and
`src/server/src/services/cache.service.ts`):

* JavaScript numbers are modelled as `Rat` (exact arithmetic) and epoch-ms
  timestamps as `Int`; `Math.round`/`Math.ceil` become `jsRound`/`jsCeil`.
* ISO date strings produced by `new Date(t).toISOString()` are modelled by
  the underlying epoch-ms value `t` itself (the conversion is injective and
  never inspected by the code; only tweet `creation_date` strings are parsed
  back, so those are carried directly as epoch-ms values).
* The document store is threaded explicitly: each fetch function takes the
  cache entry currently stored under its key (`Option CacheEntry`) and the
  follower-history rows for its history key, and returns the response
  together with the entry it writes back (if any).
* Upstream HTTP calls are modelled by an `Option RawPayload` argument:
  `some raw` is a successful response, `none` an upstream failure (the
  thrown axios error), which routes control to the function's catch block.
* JavaScript `a || b` fallback chains are embedded by `jsOr*` helpers that
  are faithful to JS falsiness on the modelled types (`0`, `""`,
  `null`/`undefined` are falsy).
-/

namespace BlackMirror

/-- One hour in milliseconds (`60 * 60 * 1000`). -/
def msPerHour : Int := 3600000

/-- One day in milliseconds (`24 * 60 * 60 * 1000`). -/
def msPerDay : Int := 86400000

/-- JavaScript `Math.round` (round half toward positive infinity). -/
def jsRound (x : Rat) : Int := ⌊x + 1/2⌋

/-- JavaScript `Math.ceil`. -/
def jsCeil (x : Rat) : Int := -⌊-x⌋

/-- JavaScript `a || b` on a possibly-absent number: `undefined`/`null` and
`0` are falsy, so both select the fallback. -/
def jsOrOpt (a : Option Rat) (b : Rat) : Rat :=
  match a with
  | some x => if x = 0 then b else x
  | none => b

/-- JavaScript `a || b` on a number that is present: only `0` is falsy. -/
def jsOrV (a b : Rat) : Rat := if a = 0 then b else a

/-- JavaScript `a || b` on a possibly-absent integer (follower counts read
back from the store: `oneDayAgoData?.followers || currentFollowers`). -/
def jsOrI (a : Option Int) (b : Int) : Int :=
  match a with
  | some x => if x = 0 then b else x
  | none => b

/-- JavaScript `a || b` on a string: the empty string is falsy. -/
def jsOrS (a b : String) : String := if a = "" then b else a

/-- JavaScript `Number(x.toFixed(2))`: round to two decimal places. -/
def round2 (x : Rat) : Rat := (jsRound (x * 100) : Rat) / 100

/-- Platform tags (`PlatformType` in `direct.ts`). -/
inductive PlatformType
  | LinkedIn
  | Twitter
  | Telegram
  | Medium
  | Onchain
deriving DecidableEq, Repr

/-- One `{count, percentage}` follower-change figure. -/
structure ChangeStat where
  count : Int
  percentage : Rat
deriving DecidableEq, Repr

/-- The `followerStats` block of `SocialMediaData`.  `current` is optional
in the source (the on-chain constructor omits it). -/
structure FollowerStats where
  current : Option Int
  totalFollowers : Int
  oneDayChange : ChangeStat
  oneWeekChange : ChangeStat
deriving DecidableEq, Repr

/-- The `contentAnalysis.metrics` block.  Fields that only some constructors
set are `Option`; `none` models an absent (undefined) field. -/
structure ContentMetrics where
  avgEngagementRate : Rat
  engagementRatePerPost : Option Rat
  dailyEngagementRate : Option Rat
  totalLikes : Rat
  totalShares : Rat
  totalReplies : Rat
  totalFavorites : Rat
  recentTweetsCount : Int
  listedCount : Int
  likes24h : Option Rat
  shares24h : Option Rat
  replies24h : Option Rat
  tweetFrequency7d : Option Int
  replyFrequency7d : Option Rat
deriving DecidableEq, Repr

/-- The `contentAnalysis` block. -/
structure ContentAnalysis where
  engagementRate : Rat
  metrics : ContentMetrics
deriving DecidableEq, Repr

/-- One element of `posts`.  `date` is the epoch-ms model of the post's ISO
date string. -/
structure Post where
  id : String
  text : String
  date : Int
  likes : Rat
  comments : Rat
  shares : Rat
deriving DecidableEq, Repr

/-- The `profile` block, the union of the fields the Twitter, Medium and
on-chain constructors set; `none` models an absent field.  The free-form
`methodology` JSON record is out of the model's scope. -/
structure SocialProfile where
  name : Option String
  username : Option String
  displayName : Option String
  bio : Option String
  profileImage : Option String
  postCount : Option Int
  followersCount : Option Int
  following : Option Int
  favorites : Option Int
  listedCount : Option Int
  isVerified : Option Bool
  isBlueVerified : Option Bool
  joinedDate : Option String
  location : Option String
  website : Option String
  category : Option String
  chains : Option (List String)
  twitter : Option String
  github : Option String
  audit_links : Option (List String)
  methodologyURL : Option String
  tvl : Option Rat
  mcap : Option Rat
  staking : Option Rat
  fdv : Option Rat
deriving DecidableEq, Repr

/-- One `{date, fees}` row of `feesHistory`. -/
structure FeeEntry where
  date : Int
  fees : Rat
deriving DecidableEq, Repr

/-- The canonical per-platform snapshot (`SocialMediaData` in `direct.ts`).
Timestamps (`_lastUpdated`) are epoch-ms models of ISO strings. -/
structure SocialMediaData where
  success : Bool
  error : Option String
  platform : PlatformType
  identifier : String
  companyName : String
  profile : SocialProfile
  followerStats : FollowerStats
  contentAnalysis : ContentAnalysis
  posts : List Post
  feesHistory : Option (List FeeEntry)
  totalDailyFees : Option Rat
  weeklyFees : Option Rat
  averageDailyFees : Option Rat
  protocolType : Option String
  total24h : Option Rat
  total48hto24h : Option Rat
  total7d : Option Rat
  totalAllTime : Option Rat
  change_1d : Option Rat
  activeWallets : Option Int
  activeWalletsGrowth24h : Option Rat
  transactions24h : Option Int
  uniqueAddresses24h : Option Int
  summary : Option String
  expiresAt : Option Int
  _source : String
  _lastUpdated : Int
deriving DecidableEq, Repr

/-- A stored cache row: `{key, data, lastUpdated, expiresAt}`.
`lastUpdated` is `Option` because the on-chain cache write omits it. -/
structure CacheEntry (α : Type) where
  key : String
  data : α
  lastUpdated : Option Int
  expiresAt : Int
deriving DecidableEq, Repr

/-- One `{timestamp, followers}` row of the `twitter:{id}:followers`
history series. -/
structure HistPoint where
  timestamp : Int
  followers : Int
deriving DecidableEq, Repr

/-- The `_lastUpdated` a cache read reports:
`new Date(cachedData.lastUpdated || cachedData.expiresAt - TTL)`; an absent
(or zero, hence falsy) `lastUpdated` falls back to `expiresAt - TTL`. -/
def luFallback (lu : Option Int) (fallback : Int) : Int :=
  match lu with
  | some t => if t = 0 then fallback else t
  | none => fallback

/-- A cache hit's return value: `{...cachedData.data, _source: 'cache',
_lastUpdated: new Date(cachedData.lastUpdated || cachedData.expiresAt - ttl)
.toISOString()}`. -/
def annotateCached (e : CacheEntry SocialMediaData) (ttl : Int) : SocialMediaData :=
  { e.data with
    _source := "cache"
    _lastUpdated := luFallback e.lastUpdated (e.expiresAt - ttl) }

/-! ## Twitter (`fetchTwitterData`, `direct.ts`) -/

/-- The user fields `fetchTwitterData` reads, present both on the
`/user/details` response and on each tweet's `user` object.
`favourites_count` and `listed_count` are nullable on tweet users. -/
structure TwitterUser where
  name : String
  username : String
  description : String
  profile_pic_url : String
  number_of_tweets : Int
  follower_count : Int
  following_count : Int
  favourites_count : Option Int
  listed_count : Option Int
  is_verified : Bool
  is_blue_verified : Bool
  creation_date : String
  location : String
  external_url : String
deriving DecidableEq, Repr

/-- One tweet of the `/user/tweets` response.  `creation_date` is the
epoch-ms model of the tweet's date string (`new Date(s).getTime()`). -/
structure TwitterTweet where
  tweet_id : String
  creation_date : Int
  text : String
  favorite_count : Int
  retweet_count : Int
  reply_count : Int
  user : TwitterUser
deriving DecidableEq, Repr

/-- The pair of upstream responses one fresh Twitter fetch consumes. -/
structure TwitterRaw where
  profile : TwitterUser
  recentTweets : List TwitterTweet
deriving DecidableEq, Repr

/-- `const userData = recentTweets[0]?.user || twitterData` (a tweet's
`user` is an object, hence always truthy). -/
def twitterUserData (raw : TwitterRaw) : TwitterUser :=
  match raw.recentTweets with
  | t :: _ => t.user
  | [] => raw.profile

/-- `totalLikes`: `reduce((sum, tweet) => sum + (tweet.favorite_count || 0), 0)`
(the `|| 0` guard is the identity on the model's total fields). -/
def totalLikes (tweets : List TwitterTweet) : Int :=
  (tweets.map (fun t => t.favorite_count)).sum

/-- `totalRetweets` over the fetched tweets. -/
def totalRetweets (tweets : List TwitterTweet) : Int :=
  (tweets.map (fun t => t.retweet_count)).sum

/-- `totalReplies` over the fetched tweets. -/
def totalReplies (tweets : List TwitterTweet) : Int :=
  (tweets.map (fun t => t.reply_count)).sum

/-- `avgEngagementRate = recentTweets.length > 0 && followerCount > 0 ?
((totalLikes + totalRetweets + totalReplies) / (followerCount *
recentTweets.length)) * 100 : 0`. -/
def twitterAvgEngagementRate (tweets : List TwitterTweet) (followerCount : Int) : Rat :=
  if 0 < tweets.length ∧ 0 < followerCount then
    ((totalLikes tweets + totalRetweets tweets + totalReplies tweets : Int) : Rat)
      / ((followerCount : Rat) * (tweets.length : Rat)) * 100
  else 0

/-- `tweetsLast7Days`: tweets with `creation_date >= now - 7d`. -/
def tweetsLast7Days (tweets : List TwitterTweet) (now : Int) : List TwitterTweet :=
  tweets.filter (fun t => decide (now - 7 * msPerDay ≤ t.creation_date))

/-- Per-post engagement rates: `(likes + retweets + replies) / followerCount
* 100` per tweet, `0` when `followerCount` is not positive. -/
def engagementRatesPerPost (tweets : List TwitterTweet) (followerCount : Int) : List Rat :=
  tweets.map (fun t =>
    if 0 < followerCount then
      ((t.favorite_count + t.retweet_count + t.reply_count : Int) : Rat)
        / (followerCount : Rat) * 100
    else 0)

/-- `avgEngagementRatePerPost`: the mean of the per-post rates, `0` on an
empty list. -/
def avgEngagementRatePerPost (tweets : List TwitterTweet) (followerCount : Int) : Rat :=
  let rates := engagementRatesPerPost tweets followerCount
  if 0 < rates.length then rates.sum / (rates.length : Rat) else 0

/-- `last24hTweets`: tweets with `creation_date >= now - 24h`. -/
def last24hTweets (tweets : List TwitterTweet) (now : Int) : List TwitterTweet :=
  tweets.filter (fun t => decide (now - msPerDay ≤ t.creation_date))

/-- `likes24h` over the last-24h tweets. -/
def likes24h (tweets : List TwitterTweet) (now : Int) : Int :=
  totalLikes (last24hTweets tweets now)

/-- `shares24h` over the last-24h tweets. -/
def shares24h (tweets : List TwitterTweet) (now : Int) : Int :=
  totalRetweets (last24hTweets tweets now)

/-- `replies24h` over the last-24h tweets. -/
def replies24h (tweets : List TwitterTweet) (now : Int) : Int :=
  totalReplies (last24hTweets tweets now)

/-- `dailyEngagementRate = followerCount > 0 ? ((likes24h + shares24h +
replies24h) / followerCount) * 100 : 0`. -/
def dailyEngagementRate (tweets : List TwitterTweet) (followerCount : Int) (now : Int) : Rat :=
  if 0 < followerCount then
    ((likes24h tweets now + shares24h tweets now + replies24h tweets now : Int) : Rat)
      / (followerCount : Rat) * 100
  else 0

/-- Insertion step of the descending-timestamp sort
(`historicalData.sort((a, b) => b.timestamp - a.timestamp)`). -/
def insertByTsDesc (p : HistPoint) : List HistPoint → List HistPoint
  | [] => [p]
  | q :: qs => if q.timestamp ≤ p.timestamp then p :: q :: qs else q :: insertByTsDesc p qs

/-- Sort history points newest-first. -/
def sortByTsDesc (l : List HistPoint) : List HistPoint :=
  l.foldr insertByTsDesc []

/-- The follower-delta block of `fetchTwitterData` (lines 502-534 of the
concatenated `direct.ts`): the store query restricts the series to
`timestamp >= now - 7d`; the newest-first list is then searched for the
first point at or before each target offset, falling back to the current
count (`oneDayAgoData?.followers || currentFollowers`). -/
def twitterFollowerStats (history : List HistPoint) (currentFollowers : Int)
    (now : Int) : FollowerStats :=
  let oneDayAgo := now - msPerDay
  let oneWeekAgo := now - 7 * msPerDay
  let historicalData := history.filter (fun d => decide (oneWeekAgo ≤ d.timestamp))
  let sorted := sortByTsDesc historicalData
  let oneDayAgoFollowers :=
    jsOrI ((sorted.find? (fun d => decide (d.timestamp ≤ oneDayAgo))).map
      (fun d => d.followers)) currentFollowers
  let oneWeekAgoFollowers :=
    jsOrI ((sorted.find? (fun d => decide (d.timestamp ≤ oneWeekAgo))).map
      (fun d => d.followers)) currentFollowers
  let oneDayChange := currentFollowers - oneDayAgoFollowers
  let oneWeekChange := currentFollowers - oneWeekAgoFollowers
  let oneDayChangePercent :=
    if 0 < oneDayAgoFollowers then
      round2 ((oneDayChange : Rat) / (oneDayAgoFollowers : Rat) * 100)
    else 0
  let oneWeekChangePercent :=
    if 0 < oneWeekAgoFollowers then
      round2 ((oneWeekChange : Rat) / (oneWeekAgoFollowers : Rat) * 100)
    else 0
  { current := some currentFollowers
    totalFollowers := currentFollowers
    oneDayChange := ⟨oneDayChange, oneDayChangePercent⟩
    oneWeekChange := ⟨oneWeekChange, oneWeekChangePercent⟩ }

/-- Replace the first history row with `timestamp >= now - 1h` by the fresh
count (the `updateOne` against `{key, timestamp: {$gte: lastHour}}`);
the `Bool` reports whether a row matched. -/
def updateFirstRecent (cur now : Int) : List HistPoint → List HistPoint × Bool
  | [] => ([], false)
  | p :: ps =>
    if now - msPerHour ≤ p.timestamp then (⟨now, cur⟩ :: ps, true)
    else
      let r := updateFirstRecent cur now ps
      (p :: r.1, r.2)

/-- The history write policy: update the most recent row when one was
written within the last hour, otherwise insert a new row. -/
def followerHistoryWrite (history : List HistPoint) (cur now : Int) : List HistPoint :=
  let r := updateFirstRecent cur now history
  if r.2 then r.1 else history ++ [⟨now, cur⟩]

/-- The Twitter cache TTL: `12 * 60 * 60 * 1000`. -/
def twitterTTL : Int := 12 * msPerHour

/-- The fresh `SocialMediaData` built from one successful pair of upstream
responses (lines 579-644 of the concatenated `direct.ts`).  String-typed
`|| ''` / `|| 0` guards are the identity on the model's total fields and are
dropped; `summary` is the summarizer's response (soft-failures already
collapse to `""` in the source). -/
def twitterNormalize (identifier companyName : String) (raw : TwitterRaw)
    (history : List HistPoint) (now : Int) (summary : String) : SocialMediaData :=
  let userData := twitterUserData raw
  let tweets := raw.recentTweets
  let followerCount := userData.follower_count
  { success := true
    error := none
    platform := PlatformType.Twitter
    identifier := identifier
    companyName := companyName
    profile :=
      { name := some userData.name
        username := some userData.username
        displayName := some userData.name
        bio := some userData.description
        profileImage := some userData.profile_pic_url
        postCount := some userData.number_of_tweets
        followersCount := some userData.follower_count
        following := some userData.following_count
        favorites := some (jsOrI userData.favourites_count 0)
        listedCount := some (jsOrI userData.listed_count 0)
        isVerified := some userData.is_verified
        isBlueVerified := some userData.is_blue_verified
        joinedDate := some userData.creation_date
        location := some userData.location
        website := some userData.external_url
        category := none, chains := none, twitter := none, github := none
        audit_links := none, methodologyURL := none
        tvl := none, mcap := none, staking := none, fdv := none }
    followerStats := twitterFollowerStats history followerCount now
    contentAnalysis :=
      { engagementRate := twitterAvgEngagementRate tweets followerCount
        metrics :=
          { avgEngagementRate := twitterAvgEngagementRate tweets followerCount
            engagementRatePerPost := some (avgEngagementRatePerPost tweets followerCount)
            dailyEngagementRate := some (dailyEngagementRate tweets followerCount now)
            totalLikes := (totalLikes tweets : Rat)
            totalShares := (totalRetweets tweets : Rat)
            totalReplies := (totalReplies tweets : Rat)
            totalFavorites := ((jsOrI userData.favourites_count 0 : Int) : Rat)
            recentTweetsCount := (tweets.length : Int)
            listedCount := jsOrI userData.listed_count 0
            likes24h := some ((likes24h tweets now : Int) : Rat)
            shares24h := some ((shares24h tweets now : Int) : Rat)
            replies24h := some ((replies24h tweets now : Int) : Rat)
            tweetFrequency7d := some ((tweetsLast7Days tweets now).length : Int)
            replyFrequency7d := some ((totalReplies (tweetsLast7Days tweets now) : Int) : Rat) } }
    posts := tweets.map (fun t =>
      { id := t.tweet_id
        text := t.text
        date := t.creation_date
        likes := (t.favorite_count : Rat)
        comments := (t.reply_count : Rat)
        shares := (t.retweet_count : Rat) })
    feesHistory := none
    totalDailyFees := none, weeklyFees := none, averageDailyFees := none
    protocolType := none
    total24h := none, total48hto24h := none, total7d := none
    totalAllTime := none, change_1d := none
    activeWallets := none, activeWalletsGrowth24h := none
    transactions24h := none, uniqueAddresses24h := none
    summary := some summary
    expiresAt := some (now + twitterTTL)
    _source := "api"
    _lastUpdated := now }

/-- The cache row the fresh Twitter path upserts (lines 646-657):
`{key, data, lastUpdated: now, expiresAt: now + 12h}`. -/
def twitterWriteEntry (identifier : String) (d : SocialMediaData) (now : Int) :
    CacheEntry SocialMediaData :=
  { key := "twitter:" ++ identifier
    data := d
    lastUpdated := some now
    expiresAt := now + twitterTTL }

/-- The structurally-valid failure payload returned when the fetch fails and
no cached entry exists (lines 702-741).  The axios branch copies the
upstream error message; the model keeps the generic fallback text. -/
def twitterErrorData (identifier companyName : String) (now : Int) : SocialMediaData :=
  { success := false
    error := some "Failed to fetch Twitter data"
    platform := PlatformType.Twitter
    identifier := identifier
    companyName := companyName
    profile :=
      { name := some "", username := some "", displayName := some ""
        bio := some "", profileImage := some ""
        postCount := some 0, followersCount := some 0
        website := some ""
        following := none, favorites := none, listedCount := none
        isVerified := none, isBlueVerified := none
        joinedDate := none, location := none
        category := none, chains := none, twitter := none, github := none
        audit_links := none, methodologyURL := none
        tvl := none, mcap := none, staking := none, fdv := none }
    followerStats :=
      { current := some 0
        totalFollowers := 0
        oneDayChange := ⟨0, 0⟩
        oneWeekChange := ⟨0, 0⟩ }
    contentAnalysis :=
      { engagementRate := 0
        metrics :=
          { avgEngagementRate := 0
            engagementRatePerPost := none
            dailyEngagementRate := none
            totalLikes := 0, totalShares := 0, totalReplies := 0
            totalFavorites := 0
            recentTweetsCount := 0
            listedCount := 0
            likes24h := none, shares24h := none, replies24h := none
            tweetFrequency7d := none, replyFrequency7d := none } }
    posts := []
    feesHistory := none
    totalDailyFees := none, weeklyFees := none, averageDailyFees := none
    protocolType := none
    total24h := none, total48hto24h := none, total7d := none
    totalAllTime := none, change_1d := none
    activeWallets := none, activeWalletsGrowth24h := none
    transactions24h := none, uniqueAddresses24h := none
    summary := none
    expiresAt := some now
    _source := "error"
    _lastUpdated := now }

/-- The fresh-fetch path and its catch block.  `upstream = none` models the
upstream calls throwing; the catch re-reads the same cache key (returning
any entry, expired or not) and otherwise falls back to the error payload. -/
def twitterFresh (identifier companyName : String)
    (cached : Option (CacheEntry SocialMediaData)) (upstream : Option TwitterRaw)
    (history : List HistPoint) (now : Int) (summary : String) :
    SocialMediaData × Option (CacheEntry SocialMediaData) × List HistPoint :=
  match upstream with
  | some raw =>
    let d := twitterNormalize identifier companyName raw history now summary
    (d, some (twitterWriteEntry identifier d now),
      followerHistoryWrite history (twitterUserData raw).follower_count now)
  | none =>
    match cached with
    | some e => (annotateCached e twitterTTL, none, history)
    | none => (twitterErrorData identifier companyName now, none, history)

/-- `fetchTwitterData`: serve a live cache entry unless `forceRefresh`,
otherwise fetch fresh (the guards at lines 403 and 413 are complementary,
so the stale-return branch at lines 663-676 is unreachable).  Returns the
response, the cache entry written (if any) and the follower-history series
after the write. -/
def twitterFetch (identifier companyName : String)
    (cached : Option (CacheEntry SocialMediaData)) (force : Bool)
    (upstream : Option TwitterRaw) (history : List HistPoint)
    (now : Int) (summary : String) :
    SocialMediaData × Option (CacheEntry SocialMediaData) × List HistPoint :=
  match cached with
  | some e =>
    if force = false ∧ now < e.expiresAt then
      (annotateCached e twitterTTL, none, history)
    else twitterFresh identifier companyName (some e) upstream history now summary
  | none => twitterFresh identifier companyName none upstream history now summary

/-! ## Medium (`fetchMediumData`, `direct.ts` lines 750-844) -/

/-- The Medium cache TTL: `12 * 60 * 60 * 1000`. -/
def mediumTTL : Int := 12 * msPerHour

/-- The deterministic placeholder payload `fetchMediumData` builds on every
cache miss (no live upstream integration exists).  Each `Date.now()` /
`new Date()` it evaluates is the logical instant `now`; the single post is
dated `Date.now() - 172800000` (two days ago). -/
def mediumMockData (identifier companyName : String) (now : Int) : SocialMediaData :=
  { success := true
    error := none
    platform := PlatformType.Medium
    identifier := identifier
    companyName := companyName
    profile :=
      { name := some companyName
        username := some identifier
        displayName := some companyName
        bio := some ("Official blog of " ++ companyName)
        profileImage := some "https://via.placeholder.com/150"
        postCount := some 45
        followersCount := some 2000
        following := none, favorites := none, listedCount := none
        isVerified := none, isBlueVerified := none
        joinedDate := none, location := none, website := none
        category := none, chains := none, twitter := none, github := none
        audit_links := none, methodologyURL := none
        tvl := none, mcap := none, staking := none, fdv := none }
    followerStats :=
      { current := some 2000
        totalFollowers := 2000
        oneDayChange := ⟨50, 5/2⟩
        oneWeekChange := ⟨50, 5/2⟩ }
    contentAnalysis :=
      { engagementRate := 3/20
        metrics :=
          { avgEngagementRate := 3/20
            engagementRatePerPost := none
            dailyEngagementRate := none
            totalLikes := 500, totalShares := 100, totalReplies := 50
            totalFavorites := 0
            recentTweetsCount := 10
            listedCount := 0
            likes24h := none, shares24h := none, replies24h := none
            tweetFrequency7d := none, replyFrequency7d := none } }
    posts :=
      [{ id := "1"
         text := "Introducing New Features in " ++ companyName
         date := now - 172800000
         likes := 150
         comments := 25
         shares := 45 }]
    feesHistory := none
    totalDailyFees := none, weeklyFees := none, averageDailyFees := none
    protocolType := none
    total24h := none, total48hto24h := none, total7d := none
    totalAllTime := none, change_1d := none
    activeWallets := none, activeWalletsGrowth24h := none
    transactions24h := none, uniqueAddresses24h := none
    summary := none
    expiresAt := some (now + mediumTTL)
    _source := "api"
    _lastUpdated := now }

/-- The cache row the Medium path upserts (lines 827-837). -/
def mediumWriteEntry (identifier : String) (d : SocialMediaData) (now : Int) :
    CacheEntry SocialMediaData :=
  { key := "medium:" ++ identifier
    data := d
    lastUpdated := some now
    expiresAt := now + mediumTTL }

/-- `fetchMediumData`: serve a live cache entry unless `forceRefresh`,
otherwise return and cache the placeholder payload.  The last component
counts upstream HTTP requests issued: the function performs none on any
path. -/
def mediumFetch (identifier companyName : String)
    (cached : Option (CacheEntry SocialMediaData)) (force : Bool) (now : Int) :
    SocialMediaData × Option (CacheEntry SocialMediaData) × Nat :=
  match cached with
  | some e =>
    if force = false ∧ now < e.expiresAt then
      (annotateCached e mediumTTL, none, 0)
    else
      let d := mediumMockData identifier companyName now
      (d, some (mediumWriteEntry identifier d now), 0)
  | none =>
    let d := mediumMockData identifier companyName now
    (d, some (mediumWriteEntry identifier d now), 0)

/-! ## On-chain (`fetchOnchainData`, `direct.ts` lines 950-1150) -/

/-- The on-chain cache TTL: `6 * 60 * 60 * 1000`. -/
def onchainTTL : Int := 6 * msPerHour

/-- `calculateGrowth` (lines 957-959): `previous === 0 ? 0 :
((current - previous) / previous) * 100`. -/
def calculateGrowth (current previous : Rat) : Rat :=
  if previous = 0 then 0 else (current - previous) / previous * 100

/-- The DeFi Llama protocol-endpoint fields the normalizer reads.
Nullable / sometimes-absent fields are `Option`. -/
structure ProtocolData where
  name : String
  displayName : String
  description : String
  url : String
  logo : String
  category : String
  chains : List String
  twitter : String
  github : Option String
  audit_links : Option (List String)
  methodologyURL : String
  tvl : Option Rat
  mcap : Option Rat
  staking : Option Rat
  fdv : Option Rat
  protocolType : String
deriving DecidableEq, Repr

/-- The DeFi Llama fees-endpoint fields the normalizer reads.  The chart is
`[unix-seconds, dailyFees]` pairs; the aggregate totals are treated as
possibly absent, matching the `||` fallback chains. -/
structure FeesData where
  total24h : Option Rat
  total48hto24h : Option Rat
  total7d : Option Rat
  totalAllTime : Option Rat
  change_1d : Rat
  totalDataChart : List (Int × Rat)
deriving DecidableEq, Repr

/-- The pair of upstream responses one fresh on-chain fetch consumes. -/
structure OnchainRaw where
  protocol : ProtocolData
  fees : FeesData
deriving DecidableEq, Repr

/-- One `{date, value}` row of `recentActivity` (date in epoch ms). -/
structure ActivityPoint where
  date : Int
  value : Rat
deriving DecidableEq, Repr

/-- `recentActivity`: the chart's last 30 points, seconds scaled to epoch
ms (the `value || 0` guard is the identity on the model's total values). -/
def recentActivity (chart : List (Int × Rat)) : List ActivityPoint :=
  (chart.drop (chart.length - 30)).map (fun p => ⟨p.1 * 1000, p.2⟩)

/-- JavaScript `arr[arr.length - 2]`: `none` when the list has fewer than
two elements. -/
def secondLast (l : List ActivityPoint) : Option ActivityPoint :=
  if l.length < 2 then none else l.get? (l.length - 2)

/-- `List.map` with the element index (`arr.map((x, i) => ...)`). -/
def mapIdxFrom (f : Nat → ActivityPoint → Post) : Nat → List ActivityPoint → List Post
  | _, [] => []
  | i, a :: as => f i a :: mapIdxFrom f (i + 1) as

/-- Display form of a fee value (`activity.value.toLocaleString()`). -/
def ratDisplay (x : Rat) : String := toString x

/-- The fresh `SocialMediaData` built from one successful pair of DeFi
Llama responses (lines 1012-1119). -/
def onchainNormalize (identifier companyName : String) (raw : OnchainRaw)
    (now : Int) : SocialMediaData :=
  let p := raw.protocol
  let fees := raw.fees
  let activity := recentActivity fees.totalDataChart
  let dailyFees := jsOrOpt fees.total24h
    (jsOrOpt ((activity.getLast?).map (fun a => a.value)) 0)
  let previousDayFees := jsOrOpt fees.total48hto24h
    (jsOrOpt ((secondLast activity).map (fun a => a.value)) 0)
  let weeklyFees := jsOrOpt fees.total7d
    (((activity.drop (activity.length - 7)).map (fun a => a.value)).sum)
  let dailyChangePercent := calculateGrowth dailyFees previousDayFees
  let transactionsCount := jsCeil dailyFees
  let uniqueAddresses := jsCeil (dailyFees * (4/5))
  let activeWallets := uniqueAddresses
  let avgTxValue := if 0 < transactionsCount then dailyFees / (transactionsCount : Rat) else 0
  { success := true
    error := none
    platform := PlatformType.Onchain
    identifier := identifier
    companyName := companyName
    profile :=
      { name := some p.name
        displayName := some p.displayName
        bio := some p.description
        website := some p.url
        profileImage := some p.logo
        category := some p.category
        chains := some p.chains
        twitter := some p.twitter
        github := p.github
        audit_links := some (p.audit_links.getD [])
        methodologyURL := some p.methodologyURL
        tvl := some (jsOrOpt p.tvl 0)
        mcap := some (jsOrOpt p.mcap 0)
        staking := some (jsOrOpt p.staking 0)
        fdv := some (jsOrOpt p.fdv 0)
        username := none, postCount := none, followersCount := none
        following := none, favorites := none, listedCount := none
        isVerified := none, isBlueVerified := none
        joinedDate := none, location := none }
    followerStats :=
      { current := none
        totalFollowers := activeWallets
        oneDayChange :=
          ⟨jsRound ((activeWallets : Rat) * (fees.change_1d / 100)), fees.change_1d⟩
        oneWeekChange :=
          ⟨jsRound ((activeWallets : Rat) * (fees.change_1d / 100)), fees.change_1d⟩ }
    contentAnalysis :=
      { engagementRate := if 0 < avgTxValue then avgTxValue / 1000 else 1/100
        metrics :=
          { avgEngagementRate := if 0 < avgTxValue then avgTxValue / 1000 else 1/100
            engagementRatePerPost := none
            dailyEngagementRate := none
            totalLikes := dailyFees
            totalShares := weeklyFees
            totalReplies := 0
            totalFavorites := 0
            recentTweetsCount := (activity.length : Int)
            listedCount := 0
            likes24h := none, shares24h := none, replies24h := none
            tweetFrequency7d := none, replyFrequency7d := none } }
    posts := mapIdxFrom (fun i a =>
      { id := "onchain-" ++ toString i
        text := "Daily fees: " ++ ratDisplay a.value ++ " USD"
        date := a.date
        likes := a.value
        comments := (jsCeil (a.value * (1/100)) : Rat)
        shares := (jsCeil (a.value * (1/20)) : Rat) }) 0 activity
    feesHistory := some (activity.map (fun a => ⟨a.date, a.value⟩))
    totalDailyFees := some dailyFees
    weeklyFees := some weeklyFees
    averageDailyFees := some (weeklyFees / 7)
    protocolType := some (jsOrS p.protocolType "DeFi")
    total24h := some dailyFees
    total48hto24h := some previousDayFees
    total7d := some weeklyFees
    totalAllTime := some (jsOrOpt fees.totalAllTime (dailyFees * 365))
    change_1d := some (jsOrV fees.change_1d dailyChangePercent)
    activeWallets := some activeWallets
    activeWalletsGrowth24h := some (jsOrV fees.change_1d 0)
    transactions24h := some transactionsCount
    uniqueAddresses24h := some uniqueAddresses
    summary := none
    expiresAt := some (now + onchainTTL)
    _source := "api"
    _lastUpdated := now }

/-- The cache row the on-chain path upserts (lines 1122-1131): `{key, data,
expiresAt: now + 6h}` — it stores no `lastUpdated` field. -/
def onchainWriteEntry (identifier : String) (d : SocialMediaData) (now : Int) :
    CacheEntry SocialMediaData :=
  { key := "onchain:" ++ identifier
    data := d
    lastUpdated := none
    expiresAt := now + onchainTTL }

/-- The typed error the on-chain catch block throws (lines 1137-1149); the
axios branch interpolates the upstream message, modelled by the generic
text. -/
def onchainErrMsg : String := "Failed to fetch onchain data from DeFi Llama"

/-- The fresh-fetch path of `fetchOnchainData`: on upstream failure the
catch block rethrows a typed error — it consults no cached fallback. -/
def onchainFresh (identifier companyName : String) (upstream : Option OnchainRaw)
    (now : Int) : Except String (SocialMediaData × Option (CacheEntry SocialMediaData)) :=
  match upstream with
  | some raw =>
    let d := onchainNormalize identifier companyName raw now
    Except.ok (d, some (onchainWriteEntry identifier d now))
  | none => Except.error onchainErrMsg

/-- `fetchOnchainData`: serve a live cache entry unless `forceRefresh`,
otherwise fetch fresh.  (The preceding `cleanupOldCacheEntries` deletes only
legacy `onchain:{id}:{timestamp}` keys, never the entry at `onchain:{id}`.) -/
def onchainFetch (identifier companyName : String)
    (cached : Option (CacheEntry SocialMediaData)) (force : Bool)
    (upstream : Option OnchainRaw) (now : Int) :
    Except String (SocialMediaData × Option (CacheEntry SocialMediaData)) :=
  match cached with
  | some e =>
    if force = false ∧ now < e.expiresAt then
      Except.ok (annotateCached e onchainTTL, none)
    else onchainFresh identifier companyName upstream now
  | none => onchainFresh identifier companyName upstream now

/-! ## LinkedIn cache write (`linkedin.service.ts`) -/

/-- The LinkedIn cache TTL: the service caches its result with
`expiresAt: now + 6 * 60 * 60 * 1000` (the source's own comment: 6 hours). -/
def linkedinTTL : Int := 6 * msPerHour

/-- The cache row the LinkedIn service upserts after a successful fetch
(`linkedin.service.ts`, the `updateOne` with `{key, data, lastUpdated: now,
expiresAt: now + 6h}`); the payload type is opaque here. -/
def linkedinWriteEntry {α : Type} (identifier : String) (d : α) (now : Int) :
    CacheEntry α :=
  { key := "linkedin:" ++ identifier
    data := d
    lastUpdated := some now
    expiresAt := now + linkedinTTL }

/-! ## Background refresh sweep (`cache.service.ts`) -/

/-- A company document as the sweep reads it:
`company.socialMedia?.onchain?.identifier` is `onchainIdentifier`. -/
structure Company where
  name : String
  onchainIdentifier : Option String
deriving DecidableEq, Repr

/-- The sweep's `for` loop (`refreshAllOnchainData`, lines 34-42): each
company with an on-chain identifier is attempted; a per-item `try`/`catch`
logs a failure and continues.  The log records each attempt and whether it
succeeded. -/
def sweepLoop (refresh : Company → Except String Unit) :
    List Company → List (String × Bool)
  | [] => []
  | c :: rest =>
    match c.onchainIdentifier with
    | some _ =>
      (match refresh c with
       | Except.ok _ => (c.name, true)
       | Except.error _ => (c.name, false)) :: sweepLoop refresh rest
    | none => sweepLoop refresh rest

/-- `refreshAllOnchainData`: the outer `try`/`catch` around the sweep means
the sweep itself never propagates an exception. -/
def refreshAllOnchainData (refresh : Company → Except String Unit)
    (companies : List Company) : Except String (List (String × Bool)) :=
  Except.ok (sweepLoop refresh companies)

/-- The per-company log entry the sweep is expected to produce: companies
without an on-chain identifier are skipped, all others attempted. -/
def attemptLog (refresh : Company → Except String Unit) (c : Company) :
    Option (String × Bool) :=
  c.onchainIdentifier.map (fun _ =>
    (c.name, match refresh c with
             | Except.ok _ => true
             | Except.error _ => false))

/-! ## Concrete fixtures used by the claim theorems -/

/-- A minimal Twitter user record. -/
def user0 : TwitterUser :=
  ⟨"", "", "", "", 0, 0, 0, none, none, false, false, "", "", ""⟩

/-- A minimal successful pair of Twitter upstream responses. -/
def twRaw0 : TwitterRaw := ⟨user0, []⟩

/-- A minimal protocol-endpoint response. -/
def protocol0 : ProtocolData :=
  ⟨"Uniswap", "Uniswap", "", "", "", "Dexes", [], "", none, none, "",
   none, none, none, none, ""⟩

/-- A fees-endpoint response with the aggregate totals absent and a
daily-fees chart ending `[..., 800, 1000]`. -/
def fees0 : FeesData :=
  ⟨none, none, none, none, 0, [(86400, 800), (172800, 1000)]⟩

/-- The on-chain upstream fixture. -/
def oraw0 : OnchainRaw := ⟨protocol0, fees0⟩

/-- The spec's follower-history example: a point 10 days old with count 100
and a point 2 days old with count 150 (`now = 0`). -/
def c3history : List HistPoint :=
  [⟨-10 * msPerDay, 100⟩, ⟨-2 * msPerDay, 150⟩]

/-- An expired cache entry (`expiresAt = 5`, read at `now = 10`). -/
def staleEntry : CacheEntry SocialMediaData :=
  ⟨"onchain:uniswap", mediumMockData "uniswap" "Uniswap" 0, some 0, 5⟩

/-! ## Shared lemmas -/

/-- Reading back an entry that a fresh fetch wrote returns its payload with
only the `_source` annotation changed: the `_lastUpdated` the read derives
(stored `lastUpdated`, or `expiresAt - TTL` when absent or zero) coincides
with the payload's own `_lastUpdated`. -/
theorem annotate_write (e : CacheEntry SocialMediaData) (ttl now : Int)
    (hlu : e.lastUpdated = some now ∨ e.lastUpdated = none)
    (hexp : e.expiresAt = now + ttl)
    (hd : e.data._lastUpdated = now) :
    annotateCached e ttl = { e.data with _source := "cache" } := by
  have hy : now + ttl - ttl = now := by omega
  have hx : luFallback e.lastUpdated (e.expiresAt - ttl) = now := by
    rw [hexp, hy]
    rcases hlu with h | h <;> rw [h] <;> simp [luFallback]
  show ({ e.data with
    _source := "cache"
    _lastUpdated := luFallback e.lastUpdated (e.expiresAt - ttl) } : SocialMediaData) =
      { e.data with _source := "cache" }
  rw [hx, ← hd]

/-- A live, non-forced Twitter read is served from the cache. -/
theorem twitterFetch_hit (identifier companyName : String)
    (e : CacheEntry SocialMediaData) (up : Option TwitterRaw)
    (hist : List HistPoint) (now : Int) (s : String) (h : now < e.expiresAt) :
    twitterFetch identifier companyName (some e) false up hist now s =
      (annotateCached e twitterTTL, none, hist) := by
  show (if (false = false) ∧ now < e.expiresAt then (annotateCached e twitterTTL, none, hist)
    else twitterFresh identifier companyName (some e) up hist now s) =
      (annotateCached e twitterTTL, none, hist)
  rw [if_pos (show (false = false) ∧ now < e.expiresAt from ⟨rfl, h⟩)]

/-- An expired, non-forced Twitter read goes to the fresh path. -/
theorem twitterFetch_stale (identifier companyName : String)
    (e : CacheEntry SocialMediaData) (up : Option TwitterRaw)
    (hist : List HistPoint) (now : Int) (s : String) (h : e.expiresAt ≤ now) :
    twitterFetch identifier companyName (some e) false up hist now s =
      twitterFresh identifier companyName (some e) up hist now s := by
  have hng : ¬ ((false = false) ∧ now < e.expiresAt) := by
    rintro ⟨-, hlt⟩
    omega
  show (if (false = false) ∧ now < e.expiresAt then (annotateCached e twitterTTL, none, hist)
    else twitterFresh identifier companyName (some e) up hist now s) =
      twitterFresh identifier companyName (some e) up hist now s
  rw [if_neg hng]

/-- A live, non-forced Medium read is served from the cache. -/
theorem mediumFetch_hit (identifier companyName : String)
    (e : CacheEntry SocialMediaData) (now : Int) (h : now < e.expiresAt) :
    mediumFetch identifier companyName (some e) false now =
      (annotateCached e mediumTTL, none, 0) := by
  show (if (false = false) ∧ now < e.expiresAt then (annotateCached e mediumTTL, none, 0)
    else (mediumMockData identifier companyName now,
      some (mediumWriteEntry identifier (mediumMockData identifier companyName now) now), 0)) =
      (annotateCached e mediumTTL, none, 0)
  rw [if_pos (show (false = false) ∧ now < e.expiresAt from ⟨rfl, h⟩)]

/-- An expired, non-forced Medium read rebuilds and re-caches the mock. -/
theorem mediumFetch_stale (identifier companyName : String)
    (e : CacheEntry SocialMediaData) (now : Int) (h : e.expiresAt ≤ now) :
    mediumFetch identifier companyName (some e) false now =
      (mediumMockData identifier companyName now,
       some (mediumWriteEntry identifier (mediumMockData identifier companyName now) now),
       0) := by
  have hng : ¬ ((false = false) ∧ now < e.expiresAt) := by
    rintro ⟨-, hlt⟩
    omega
  show (if (false = false) ∧ now < e.expiresAt then (annotateCached e mediumTTL, none, 0)
    else (mediumMockData identifier companyName now,
      some (mediumWriteEntry identifier (mediumMockData identifier companyName now) now), 0)) =
      (mediumMockData identifier companyName now,
       some (mediumWriteEntry identifier (mediumMockData identifier companyName now) now), 0)
  rw [if_neg hng]

/-- A live, non-forced on-chain read is served from the cache. -/
theorem onchainFetch_hit (identifier companyName : String)
    (e : CacheEntry SocialMediaData) (up : Option OnchainRaw) (now : Int)
    (h : now < e.expiresAt) :
    onchainFetch identifier companyName (some e) false up now =
      Except.ok (annotateCached e onchainTTL, none) := by
  show (if (false = false) ∧ now < e.expiresAt then
      Except.ok (annotateCached e onchainTTL, none)
    else onchainFresh identifier companyName up now) =
      Except.ok (annotateCached e onchainTTL, none)
  rw [if_pos (show (false = false) ∧ now < e.expiresAt from ⟨rfl, h⟩)]

/-- An expired, non-forced on-chain read goes to the fresh path. -/
theorem onchainFetch_stale (identifier companyName : String)
    (e : CacheEntry SocialMediaData) (up : Option OnchainRaw) (now : Int)
    (h : e.expiresAt ≤ now) :
    onchainFetch identifier companyName (some e) false up now =
      onchainFresh identifier companyName up now := by
  have hng : ¬ ((false = false) ∧ now < e.expiresAt) := by
    rintro ⟨-, hlt⟩
    omega
  show (if (false = false) ∧ now < e.expiresAt then
      Except.ok (annotateCached e onchainTTL, none)
    else onchainFresh identifier companyName up now) =
      onchainFresh identifier companyName up now
  rw [if_neg hng]

/-- No Medium fetch path issues an upstream HTTP request. -/
theorem mediumFetch_calls (identifier companyName : String)
    (cached : Option (CacheEntry SocialMediaData)) (force : Bool) (now : Int) :
    (mediumFetch identifier companyName cached force now).2.2 = 0 := by
  cases cached with
  | none => rfl
  | some c =>
    show (if (force = false) ∧ now < c.expiresAt then
        ((annotateCached c mediumTTL, none, 0) :
          SocialMediaData × Option (CacheEntry SocialMediaData) × Nat)
      else (mediumMockData identifier companyName now,
        some (mediumWriteEntry identifier (mediumMockData identifier companyName now) now),
        0)).2.2 = 0
    split <;> rfl

/-- The sweep loop produces exactly the per-company attempt log. -/
theorem sweepLoop_eq_filterMap (refresh : Company → Except String Unit)
    (companies : List Company) :
    sweepLoop refresh companies = companies.filterMap (attemptLog refresh) := by
  induction companies with
  | nil => rfl
  | cons c rest ih =>
    cases h : c.onchainIdentifier with
    | none => simp [sweepLoop, h, attemptLog, ih]
    | some i =>
      cases hr : refresh c <;>
        simp [sweepLoop, h, hr, attemptLog, ih]

/-! ## Claim theorems -/

/-- C3: evaluating the embedded follower-delta computation at the spec's own
example (history `[{t=-10d, c=100}, {t=-2d, c=150}]`, current count 200,
`now = 0`) gives `oneDayChange.count = 50` but `oneWeekChange.count = 0`:
the store query restricts the series to `timestamp >= now - 7d`, so the
`-10d` point the claim designates as the one-week reference is never
fetched and the computation falls back to the current count. -/
theorem claim3_code_bug :
    (twitterFollowerStats c3history 200 0).oneDayChange.count = 50 ∧
    (twitterFollowerStats c3history 200 0).oneWeekChange.count = 0 := by
  constructor <;> rfl

/-- C4 (counterexample): the LinkedIn service caches with a 6-hour TTL, not
the 12 hours the claim states. -/
theorem claim4_counterexample :
    (linkedinWriteEntry "x" (0 : Int) 0).expiresAt = 6 * msPerHour ∧
    (linkedinWriteEntry "x" (0 : Int) 0).expiresAt ≠ 12 * msPerHour := by
  constructor <;> decide

/-- C4 (amended): the cache rows written after a successful fetch carry a
TTL of 12 hours for Twitter and Medium and 6 hours for the on-chain and
LinkedIn platforms. -/
theorem claim4_amended (idT idM idO idL : String) (dT dM dO : SocialMediaData)
    (dL : Int) (now : Int) :
    (twitterWriteEntry idT dT now).expiresAt = now + 12 * msPerHour ∧
    (mediumWriteEntry idM dM now).expiresAt = now + 12 * msPerHour ∧
    (onchainWriteEntry idO dO now).expiresAt = now + 6 * msPerHour ∧
    (linkedinWriteEntry idL dL now).expiresAt = now + 6 * msPerHour := by
  refine ⟨rfl, rfl, rfl, rfl⟩

/-- C5: the aggregate Twitter engagement rate is
`(Σlikes + Σretweets + Σreplies) / (followerCount × postCount) × 100` when
both follower count and post count are positive, and exactly `0` when
either is zero; the zero-follower guard also zeroes the per-post average
and the daily engagement rate. -/
theorem claim5 (tweets : List TwitterTweet) (fc : Int) (now : Int) :
    (fc = 0 →
      twitterAvgEngagementRate tweets fc = 0 ∧
      avgEngagementRatePerPost tweets fc = 0 ∧
      dailyEngagementRate tweets fc now = 0) ∧
    (tweets = [] → twitterAvgEngagementRate tweets fc = 0) ∧
    (0 < fc → 0 < tweets.length →
      twitterAvgEngagementRate tweets fc =
        ((totalLikes tweets + totalRetweets tweets + totalReplies tweets : Int) : Rat)
          / ((fc : Rat) * (tweets.length : Rat)) * 100) := by
  refine ⟨?_, ?_, ?_⟩
  · intro h
    subst h
    refine ⟨?_, ?_, ?_⟩
    · simp [twitterAvgEngagementRate]
    · have hz : engagementRatesPerPost tweets 0 = tweets.map (fun _ => (0 : Rat)) := by
        simp [engagementRatesPerPost]
      simp [avgEngagementRatePerPost, hz]
    · simp [dailyEngagementRate]
  · intro h
    subst h
    simp [twitterAvgEngagementRate]
  · intro h1 h2
    simp [twitterAvgEngagementRate, h1, h2]

/-- C5 (witness): at one concrete payload the guards evaluate as claimed. -/
theorem claim5_witness :
    twitterAvgEngagementRate [] 0 = 0 ∧
    avgEngagementRatePerPost [] 0 = 0 ∧
    dailyEngagementRate [] 0 0 = 0 :=
  (claim5 [] 0 0).1 rfl

/-- C6: `calculateGrowth` returns 0 whenever the previous value is 0 and
the exact relative change otherwise; on the fixture whose daily-fees chart
ends `[..., 800, 1000]` with the API totals absent, the normalizer reports
`totalDailyFees = 1000`, `total48hto24h = 800` (the previous day's fees)
and a daily change of 25 percent. -/
theorem claim6 :
    (∀ cur : Rat, calculateGrowth cur 0 = 0) ∧
    (∀ cur prev : Rat, prev ≠ 0 →
      calculateGrowth cur prev = (cur - prev) / prev * 100) ∧
    calculateGrowth 1000 800 = 25 ∧
    (onchainNormalize "uniswap" "Uniswap" oraw0 0).totalDailyFees = some 1000 ∧
    (onchainNormalize "uniswap" "Uniswap" oraw0 0).total48hto24h = some 800 ∧
    (onchainNormalize "uniswap" "Uniswap" oraw0 0).change_1d = some 25 := by
  refine ⟨?_, ?_, ?_, ?_, ?_, ?_⟩
  · intro cur; simp [calculateGrowth]
  · intro cur prev h; simp [calculateGrowth, h]
  · norm_num [calculateGrowth]
  · norm_num [onchainNormalize, oraw0, fees0, recentActivity, secondLast, jsOrOpt]
  · norm_num [onchainNormalize, oraw0, fees0, recentActivity, secondLast, jsOrOpt]
  · norm_num [onchainNormalize, oraw0, fees0, recentActivity, secondLast, jsOrOpt,
      jsOrV, calculateGrowth]

/-- C9: the background sweep attempts every company that has an on-chain
identifier — its per-item `try`/`catch` means one company's failure never
aborts the rest — and the sweep itself always returns without propagating
an exception. -/
theorem claim9 (refresh : Company → Except String Unit) (companies : List Company) :
    refreshAllOnchainData refresh companies =
      Except.ok (companies.filterMap (attemptLog refresh)) ∧
    ∀ c ∈ companies, c.onchainIdentifier.isSome = true →
      c.name ∈ (sweepLoop refresh companies).map Prod.fst := by
  constructor
  · rw [refreshAllOnchainData, sweepLoop_eq_filterMap]
  · intro c hc hs
    obtain ⟨i, hi⟩ := Option.isSome_iff_exists.mp hs
    refine List.mem_map.mpr ⟨(c.name,
      match refresh c with
      | Except.ok _ => true
      | Except.error _ => false), ?_, rfl⟩
    rw [sweepLoop_eq_filterMap]
    exact List.mem_filterMap.mpr ⟨c, hc, by simp [attemptLog, hi]⟩

/-- C10: every successful on-chain normalization reports a weekly follower
change identical to its daily follower change — both are derived from the
same 1-day `change_1d` figure. -/
theorem claim10 (identifier companyName : String) (raw : OnchainRaw) (now : Int) :
    (onchainNormalize identifier companyName raw now).followerStats.oneWeekChange =
      (onchainNormalize identifier companyName raw now).followerStats.oneDayChange := by
  rfl

/-- C1 (counterexample): the on-chain path's cache write stores no
`lastUpdated` field at all, so after a successful on-chain fetch the stored
entry cannot satisfy `expiresAt = lastUpdated + TTL`. -/
theorem claim1_counterexample :
    onchainFetch "uniswap" "Uniswap" none false (some oraw0) 0 =
      Except.ok (onchainNormalize "uniswap" "Uniswap" oraw0 0,
        some (onchainWriteEntry "uniswap" (onchainNormalize "uniswap" "Uniswap" oraw0 0) 0)) ∧
    (onchainWriteEntry "uniswap" (onchainNormalize "uniswap" "Uniswap" oraw0 0) 0).lastUpdated
      = none := by
  exact ⟨rfl, rfl⟩

/-- C1 (amended): after a successful fetch the Twitter and Medium cache
entries satisfy `expiresAt = lastUpdated + TTL(platform)` exactly, while the
on-chain write stores no `lastUpdated` (readers derive it as
`expiresAt - TTL`); for all three platforms a subsequent read before
`expiresAt` returns the stored data unchanged apart from the
`_source = "cache"` annotation. -/
theorem claim1_amended (idT coT idM coM idO coO : String)
    (raw : TwitterRaw) (oraw : OnchainRaw)
    (hist hist2 : List HistPoint) (s s2 : String)
    (up2 : Option TwitterRaw) (oup2 : Option OnchainRaw)
    (now now2 : Int)
    (h1 : now2 < now + twitterTTL) (h2 : now2 < now + mediumTTL)
    (h3 : now2 < now + onchainTTL) :
    twitterFetch idT coT none false (some raw) hist now s =
      (twitterNormalize idT coT raw hist now s,
       some (twitterWriteEntry idT (twitterNormalize idT coT raw hist now s) now),
       followerHistoryWrite hist (twitterUserData raw).follower_count now) ∧
    (twitterWriteEntry idT (twitterNormalize idT coT raw hist now s) now).lastUpdated
      = some now ∧
    (twitterWriteEntry idT (twitterNormalize idT coT raw hist now s) now).expiresAt
      = now + twitterTTL ∧
    twitterFetch idT coT
        (some (twitterWriteEntry idT (twitterNormalize idT coT raw hist now s) now))
        false up2 hist2 now2 s2 =
      ({ twitterNormalize idT coT raw hist now s with _source := "cache" }, none, hist2) ∧
    mediumFetch idM coM none false now =
      (mediumMockData idM coM now,
       some (mediumWriteEntry idM (mediumMockData idM coM now) now), 0) ∧
    (mediumWriteEntry idM (mediumMockData idM coM now) now).lastUpdated = some now ∧
    (mediumWriteEntry idM (mediumMockData idM coM now) now).expiresAt = now + mediumTTL ∧
    mediumFetch idM coM
        (some (mediumWriteEntry idM (mediumMockData idM coM now) now)) false now2 =
      ({ mediumMockData idM coM now with _source := "cache" }, none, 0) ∧
    onchainFetch idO coO none false (some oraw) now =
      Except.ok (onchainNormalize idO coO oraw now,
        some (onchainWriteEntry idO (onchainNormalize idO coO oraw now) now)) ∧
    (onchainWriteEntry idO (onchainNormalize idO coO oraw now) now).lastUpdated = none ∧
    (onchainWriteEntry idO (onchainNormalize idO coO oraw now) now).expiresAt
      = now + onchainTTL ∧
    onchainFetch idO coO
        (some (onchainWriteEntry idO (onchainNormalize idO coO oraw now) now))
        false oup2 now2 =
      Except.ok ({ onchainNormalize idO coO oraw now with _source := "cache" }, none) := by
  refine ⟨rfl, rfl, rfl, ?_, rfl, rfl, rfl, ?_, rfl, rfl, rfl, ?_⟩
  · rw [twitterFetch_hit idT coT _ up2 hist2 now2 s2 h1,
      annotate_write _ twitterTTL now (Or.inl rfl) rfl rfl]
    rfl
  · rw [mediumFetch_hit idM coM _ now2 h2,
      annotate_write _ mediumTTL now (Or.inl rfl) rfl rfl]
    rfl
  · rw [onchainFetch_hit idO coO _ oup2 now2 h3,
      annotate_write _ onchainTTL now (Or.inr rfl) rfl rfl]
    rfl

/-- C1 (witness): the amended statement instantiated at a concrete fetch. -/
theorem claim1_witness :
    (twitterWriteEntry "t" (twitterNormalize "t" "c" twRaw0 [] 0 "") 0).lastUpdated
      = some 0 ∧
    (twitterWriteEntry "t" (twitterNormalize "t" "c" twRaw0 [] 0 "") 0).expiresAt
      = 0 + twitterTTL :=
  ⟨(claim1_amended "t" "c" "m" "c" "o" "c" twRaw0 oraw0 [] [] "" "" none none 0 1
      (by decide) (by decide) (by decide)).2.1,
   (claim1_amended "t" "c" "m" "c" "o" "c" twRaw0 oraw0 [] [] "" "" none none 0 1
      (by decide) (by decide) (by decide)).2.2.1⟩

/-- C2 (counterexample): an expired on-chain cache entry exists for the key,
yet an upstream failure still propagates the typed error instead of
returning the stale entry with `_source = "cache"`. -/
theorem claim2_counterexample :
    onchainFetch "uniswap" "Uniswap" (some staleEntry) false none 10 =
      Except.error onchainErrMsg := by
  rfl

/-- C2 (amended): on an upstream fetch failure the Twitter path returns any
existing cached entry (even expired) annotated `_source = "cache"`, and with
no cached entry returns a structurally valid payload with `success = false`,
`followerStats.current = 0` and `posts = []` instead of throwing; the
on-chain path raises its typed fetch error on every upstream failure,
whether or not a (possibly expired) cached entry exists. -/
theorem claim2_amended (idT coT idO coO : String) (e eO : CacheEntry SocialMediaData)
    (hist : List HistPoint) (now : Int) (s : String)
    (hT : e.expiresAt ≤ now) (hO : eO.expiresAt ≤ now) :
    twitterFetch idT coT (some e) false none hist now s =
      (annotateCached e twitterTTL, none, hist) ∧
    (annotateCached e twitterTTL)._source = "cache" ∧
    twitterFetch idT coT none false none hist now s =
      (twitterErrorData idT coT now, none, hist) ∧
    (twitterErrorData idT coT now).success = false ∧
    (twitterErrorData idT coT now).followerStats.current = some 0 ∧
    (twitterErrorData idT coT now).posts = [] ∧
    onchainFetch idO coO none false none now = Except.error onchainErrMsg ∧
    onchainFetch idO coO (some eO) false none now = Except.error onchainErrMsg := by
  refine ⟨?_, rfl, rfl, rfl, rfl, rfl, rfl, ?_⟩
  · rw [twitterFetch_stale idT coT e none hist now s hT]
    rfl
  · rw [onchainFetch_stale idO coO eO none now hO]
    rfl

/-- C2 (witness): the amended statement instantiated at a concrete expired
entry. -/
theorem claim2_witness :
    (twitterErrorData "t" "c" 10).success = false ∧
    (twitterErrorData "t" "c" 10).followerStats.current = some 0 ∧
    (twitterErrorData "t" "c" 10).posts = [] :=
  ⟨(claim2_amended "t" "c" "o" "c" staleEntry staleEntry [] 10 ""
      (by decide) (by decide)).2.2.2.1,
   (claim2_amended "t" "c" "o" "c" staleEntry staleEntry [] 10 ""
      (by decide) (by decide)).2.2.2.2.1,
   (claim2_amended "t" "c" "o" "c" staleEntry staleEntry [] 10 ""
      (by decide) (by decide)).2.2.2.2.2.1⟩

/-- C7 (counterexample): the normalization step is not a function of the
raw payload and history state alone — two runs over the identical payload
and history at different clock readings differ (here in the `expiresAt`
they stamp). -/
theorem claim7_counterexample :
    twitterNormalize "a" "b" twRaw0 [] 0 "" ≠
      twitterNormalize "a" "b" twRaw0 [] 86400000 "" := by
  intro h
  have h1 : (twitterNormalize "a" "b" twRaw0 [] 0 "").expiresAt
      = some (0 + twitterTTL) := rfl
  have h2 : (twitterNormalize "a" "b" twRaw0 [] 86400000 "").expiresAt
      = some (86400000 + twitterTTL) := rfl
  rw [h, h2] at h1
  simp [twitterTTL, msPerHour] at h1

/-- C7 (amended): the normalization step is a deterministic function of the
raw payload, the history state, the clock reading and the summarizer
response together — two runs agreeing on all four inputs produce identical
`SocialMediaData`. -/
theorem claim7_amended (identifier companyName : String) (raw : TwitterRaw)
    (hist : List HistPoint) (n1 n2 : Int) (s1 s2 : String)
    (hn : n1 = n2) (hs : s1 = s2) :
    twitterNormalize identifier companyName raw hist n1 s1 =
      twitterNormalize identifier companyName raw hist n2 s2 := by
  rw [hn, hs]

/-- C7 (witness): the amended statement at a concrete payload and clock. -/
theorem claim7_witness :
    twitterNormalize "a" "b" twRaw0 [] 0 "" = twitterNormalize "a" "b" twRaw0 [] 0 "" :=
  claim7_amended "a" "b" twRaw0 [] 0 0 "" "" rfl rfl

/-- C8: a Medium fetch performs no upstream HTTP request on any path; on a
cache miss (no entry, or an expired one) it returns the `success = true`
placeholder with follower count 2000 and exactly one synthetic post, and
caches it under the same 12-hour TTL the Twitter path uses. -/
theorem claim8 (identifier companyName : String) (now : Int)
    (cached : Option (CacheEntry SocialMediaData)) (force : Bool)
    (e : CacheEntry SocialMediaData) (he : e.expiresAt ≤ now) :
    (mediumFetch identifier companyName cached force now).2.2 = 0 ∧
    mediumFetch identifier companyName none false now =
      (mediumMockData identifier companyName now,
       some (mediumWriteEntry identifier (mediumMockData identifier companyName now) now),
       0) ∧
    mediumFetch identifier companyName (some e) false now =
      (mediumMockData identifier companyName now,
       some (mediumWriteEntry identifier (mediumMockData identifier companyName now) now),
       0) ∧
    (mediumMockData identifier companyName now).success = true ∧
    (mediumMockData identifier companyName now).profile.followersCount = some 2000 ∧
    (mediumMockData identifier companyName now).followerStats.current = some 2000 ∧
    (mediumMockData identifier companyName now).posts.length = 1 ∧
    (mediumWriteEntry identifier (mediumMockData identifier companyName now) now).expiresAt
      = now + mediumTTL ∧
    mediumTTL = twitterTTL := by
  refine ⟨?_, rfl, ?_, rfl, rfl, rfl, rfl, rfl, rfl⟩
  · exact mediumFetch_calls identifier companyName cached force now
  · rw [mediumFetch_stale identifier companyName e now he]

/-- C8 (witness): the statement instantiated at a concrete expired entry. -/
theorem claim8_witness :
    (mediumFetch "m" "c" (some staleEntry) false 10).2.2 = 0 :=
  (claim8 "m" "c" 10 (some staleEntry) false staleEntry (by decide)).1

end BlackMirror
